import Mathlib

/-!
# Chiaki GUI: controller event channel and stream window teardown

A shallow embedding of `gui/include/jsevent.h` and of the `JSEventListener`
and `StreamWindow` member functions of `gui/src/streamwindow.cpp`.

* `JSEvent_Struct` is the wire record; its declaration order is kept in
  `JSEvent_Struct.decl`, its object representation in `toBytes` / `ofBytes`.
* `JSEventListener` carries the ZeroMQ socket, the ZeroMQ context and the
  `stop` flag; `terminate` and the receive loop of `run` are state passing
  functions that also log every call made on a collaborator.
* `StreamWindow` carries the three component pointers; `closeEvent`,
  the destructor, the constructor and `SessionQuit` log every operation
  together with the state of the pointer it was applied to.

Collaborators that live outside the two files (ZeroMQ, Qt, `StreamSession`,
`AVOpenGLWidget`) are not executed: a call on one of them is an entry of a log.
-/

namespace Chiaki

/-! ## `jsevent.h` -/

/-- The two C types used by the members of `JSEvent_Struct`. -/
inductive CType where
  | bool
  | short
  deriving DecidableEq, Repr

/-- Member names of `JSEvent_Struct`. -/
inductive Member where
  | buttonA | buttonB | buttonX | buttonY
  | buttonLeft | buttonRight | buttonUp | buttonDown
  | buttonL1 | buttonR1 | buttonL3 | buttonR3
  | buttonStart | buttonSelect | buttonGuide
  | _dummy
  | buttonL2 | buttonR2
  | axisLeftX | axisLeftY | axisRightX | axisRightY
  deriving DecidableEq, Repr

/-- The record `JSEvent_Struct` of `jsevent.h`; a `short` member is an integer,
its 16-bit range is the predicate `JSEvent_Struct.InRange`. -/
structure JSEvent_Struct where
  buttonA : Bool
  buttonB : Bool
  buttonX : Bool
  buttonY : Bool
  buttonLeft : Bool
  buttonRight : Bool
  buttonUp : Bool
  buttonDown : Bool
  buttonL1 : Bool
  buttonR1 : Bool
  buttonL3 : Bool
  buttonR3 : Bool
  buttonStart : Bool
  buttonSelect : Bool
  buttonGuide : Bool
  _dummy : Bool
  buttonL2 : Bool
  buttonR2 : Bool
  axisLeftX : Int
  axisLeftY : Int
  axisRightX : Int
  axisRightY : Int
  deriving DecidableEq, Repr

/-- The member declarations of `JSEvent_Struct`, in the order of the header. -/
def JSEvent_Struct.decl : List (Member × CType) :=
  [ (.buttonA, .bool), (.buttonB, .bool), (.buttonX, .bool), (.buttonY, .bool),
    (.buttonLeft, .bool), (.buttonRight, .bool), (.buttonUp, .bool), (.buttonDown, .bool),
    (.buttonL1, .bool), (.buttonR1, .bool), (.buttonL3, .bool), (.buttonR3, .bool),
    (.buttonStart, .bool), (.buttonSelect, .bool), (.buttonGuide, .bool),
    (._dummy, .bool),
    (.buttonL2, .bool), (.buttonR2, .bool),
    (.axisLeftX, .short), (.axisLeftY, .short), (.axisRightX, .short), (.axisRightY, .short) ]

/-- A member is the reserved slot when it is the one named `_dummy`. -/
def Member.isReserved (m : Member) : Bool :=
  decide (m = Member._dummy)

/-- The C types of the members, in declaration order. -/
def JSEvent_Struct.types : List CType :=
  JSEvent_Struct.decl.map Prod.snd

/-- The `short` range. -/
def isInt16 (x : Int) : Prop :=
  -32768 ≤ x ∧ x ≤ 32767

instance (x : Int) : Decidable (isInt16 x) := by
  unfold isInt16; infer_instance

/-- Every axis of the event is a value of type `short`. -/
def JSEvent_Struct.InRange (e : JSEvent_Struct) : Prop :=
  isInt16 e.axisLeftX ∧ isInt16 e.axisLeftY ∧ isInt16 e.axisRightX ∧ isInt16 e.axisRightY

instance (e : JSEvent_Struct) : Decidable e.InRange := by
  unfold JSEvent_Struct.InRange; infer_instance

/-! ### Object representation

The header fixes the members and their order; the sizes are those of the
platforms the GUI is built for: a `bool` is one byte, a `short` is two bytes
in two's complement, each aligned to its size.  Bytes are naturals below 256. -/

/-- Size in bytes of a member type. -/
def CType.size : CType → Nat
  | .bool => 1
  | .short => 2

/-- Alignment of a member type. -/
def CType.align : CType → Nat
  | .bool => 1
  | .short => 2

/-- Round `off` up to a multiple of `a`. -/
def alignUp (off a : Nat) : Nat :=
  (off + a - 1) / a * a

/-- Offsets of the members laid out from `off` on, with the end offset. -/
def layoutFrom (off : Nat) : List (Member × CType) → List (Member × Nat) × Nat
  | [] => ([], off)
  | (m, t) :: rest =>
    let o := alignUp off t.align
    let r := layoutFrom (o + t.size) rest
    ((m, o) :: r.1, r.2)

/-- Byte offset of a member inside `JSEvent_Struct`. -/
def JSEvent_Struct.offsetOf (m : Member) : Nat :=
  ((layoutFrom 0 JSEvent_Struct.decl).1.lookup m).getD 0

/-- The value of `sizeof(JSEvent_Struct)`: the end offset rounded up to the
largest member alignment. -/
def JSEvent_Struct.sizeof : Nat :=
  alignUp (layoutFrom 0 JSEvent_Struct.decl).2
    ((JSEvent_Struct.decl.map fun p => p.2.align).foldl max 1)

/-- Byte order of the machine. -/
inductive ByteOrder where
  | little
  | big
  deriving DecidableEq, Repr

/-- The byte of a `bool`. -/
def boolByte (b : Bool) : Nat :=
  if b then 1 else 0

/-- The two bytes of a `short`, in memory order. -/
def shortBytes (bo : ByteOrder) (x : Int) : List Nat :=
  let u := (x % 65536).toNat
  match bo with
  | .little => [u % 256, u / 256]
  | .big => [u / 256, u % 256]

/-- Read a `bool` at offset `i`. -/
def readBool (b : List Nat) (i : Nat) : Bool :=
  b.getD i 0 != 0

/-- The `short` whose two bytes, in memory order, are `b0` and `b1`. -/
def shortOfBytes (bo : ByteOrder) (b0 b1 : Nat) : Int :=
  let u : Nat :=
    match bo with
    | .little => b0 + 256 * b1
    | .big => 256 * b0 + b1
  if u < 32768 then (u : Int) else (u : Int) - 65536

/-- Read a `short` at offset `i`. -/
def readShort (bo : ByteOrder) (b : List Nat) (i : Nat) : Int :=
  shortOfBytes bo (b.getD i 0) (b.getD (i + 1) 0)

/-- The object representation of an event: the bytes of its members in
declaration order (no padding is needed between them). -/
def JSEvent_Struct.toBytes (bo : ByteOrder) (e : JSEvent_Struct) : List Nat :=
  [ boolByte e.buttonA, boolByte e.buttonB, boolByte e.buttonX, boolByte e.buttonY,
    boolByte e.buttonLeft, boolByte e.buttonRight, boolByte e.buttonUp, boolByte e.buttonDown,
    boolByte e.buttonL1, boolByte e.buttonR1, boolByte e.buttonL3, boolByte e.buttonR3,
    boolByte e.buttonStart, boolByte e.buttonSelect, boolByte e.buttonGuide,
    boolByte e._dummy, boolByte e.buttonL2, boolByte e.buttonR2 ]
  ++ shortBytes bo e.axisLeftX ++ shortBytes bo e.axisLeftY
  ++ shortBytes bo e.axisRightX ++ shortBytes bo e.axisRightY

/-- The event held by an object of `sizeof(JSEvent_Struct)` bytes: every member
is read at its offset. -/
def JSEvent_Struct.ofBytes (bo : ByteOrder) (b : List Nat) : JSEvent_Struct where
  buttonA := readBool b (offsetOf .buttonA)
  buttonB := readBool b (offsetOf .buttonB)
  buttonX := readBool b (offsetOf .buttonX)
  buttonY := readBool b (offsetOf .buttonY)
  buttonLeft := readBool b (offsetOf .buttonLeft)
  buttonRight := readBool b (offsetOf .buttonRight)
  buttonUp := readBool b (offsetOf .buttonUp)
  buttonDown := readBool b (offsetOf .buttonDown)
  buttonL1 := readBool b (offsetOf .buttonL1)
  buttonR1 := readBool b (offsetOf .buttonR1)
  buttonL3 := readBool b (offsetOf .buttonL3)
  buttonR3 := readBool b (offsetOf .buttonR3)
  buttonStart := readBool b (offsetOf .buttonStart)
  buttonSelect := readBool b (offsetOf .buttonSelect)
  buttonGuide := readBool b (offsetOf .buttonGuide)
  _dummy := readBool b (offsetOf ._dummy)
  buttonL2 := readBool b (offsetOf .buttonL2)
  buttonR2 := readBool b (offsetOf .buttonR2)
  axisLeftX := readShort bo b (offsetOf .axisLeftX)
  axisLeftY := readShort bo b (offsetOf .axisLeftY)
  axisRightX := readShort bo b (offsetOf .axisRightX)
  axisRightY := readShort bo b (offsetOf .axisRightY)

/-- The call `memcpy(dst, src, n)` seen from `dst` on: the first `n` bytes come
from `src`, the bytes behind them keep their content.  When `n` exceeds the
length of `dst` the result is longer than `dst`: the call wrote past the
object. -/
def memcpy (dst src : List Nat) (n : Nat) : List Nat :=
  src.take n ++ dst.drop n

/-! ## `JSEventListener` -/

/-- State of a ZeroMQ handle (a socket or a context) held in a field. -/
inductive Handle where
  | live
  | released
  deriving DecidableEq, Repr

/-- The fields of `JSEventListener` that its member functions read or write
(`session` is a pointer that is only passed on). -/
structure JSEventListener where
  z_context : Handle
  z_socket : Handle
  stop : Bool
  deriving DecidableEq, Repr

/-- A call on the ZeroMQ library made by `terminate`, with the state the handle
was in when the call was made. -/
inductive ZmqCall where
  | zmq_close (socket : Handle)
  | zmq_ctx_destroy (context : Handle)
  deriving DecidableEq, Repr

/-- The constructor `JSEventListener::JSEventListener`: a new context, a new
socket in it, `stop = false`. -/
def JSEventListener.new : JSEventListener :=
  { z_context := .live, z_socket := .live, stop := false }

/-- First statement of `terminate`: `zmq_close(z_socket)`. -/
def JSEventListener.closeSocket (l : JSEventListener) : JSEventListener :=
  { l with z_socket := .released }

/-- Second statement of `terminate`: `zmq_ctx_destroy(z_context)`. -/
def JSEventListener.destroyContext (l : JSEventListener) : JSEventListener :=
  { l with z_context := .released }

/-- Third statement of `terminate`: `stop = true`. -/
def JSEventListener.setStop (l : JSEventListener) : JSEventListener :=
  { l with stop := true }

/-- The member function `JSEventListener::terminate`. -/
def JSEventListener.terminate (l : JSEventListener) : JSEventListener :=
  l.closeSocket.destroyContext.setStop

/-- The states of the listener during `terminate`: the state it is entered in
and the state after each of its three statements. -/
def JSEventListener.terminateStates (l : JSEventListener) : List JSEventListener :=
  [l, l.closeSocket, l.closeSocket.destroyContext, l.closeSocket.destroyContext.setStop]

/-- The library calls made by `terminate`, in order; neither call is guarded
and neither result is looked at. -/
def JSEventListener.terminateCalls (l : JSEventListener) : List ZmqCall :=
  [.zmq_close l.z_socket, .zmq_ctx_destroy l.closeSocket.z_context]

/-- The channel is released: socket closed and context destroyed. -/
def JSEventListener.channelReleased (l : JSEventListener) : Bool :=
  l.z_socket == .released && l.z_context == .released

/-- The flag is consistent with the channel: `stop` is not set while the socket
or the context is still live. -/
def JSEventListener.StopImpliesReleased (l : JSEventListener) : Prop :=
  l.stop = true → l.channelReleased = true

instance (l : JSEventListener) : Decidable l.StopImpliesReleased := by
  unfold JSEventListener.StopImpliesReleased; infer_instance

/-- Result of `zmq_msg_recv`: a message of `data.length` bytes, or `-1`. -/
inductive RecvResult where
  | message (data : List Nat)
  | error
  deriving DecidableEq, Repr

/-- What one pass of the loop of `run` takes from its environment: the value
of `stop` read by the loop test, the result of `zmq_msg_recv`, and the bytes
that the uninitialised local `event` happens to hold. -/
structure Pass where
  stop : Bool
  recv : RecvResult
  event0 : List Nat
  deriving DecidableEq, Repr

/-- A call `session->SendJSEvent(event)`: the bytes of `event` when it is passed,
and the number of bytes the preceding `memcpy` wrote past `event`. -/
structure SendJSEvent where
  event : List Nat
  overrun : Nat
  deriving DecidableEq, Repr

/-- The body of `if (rc != -1)`: copy `zmq_msg_size` bytes of the message into
the local `event` and pass it to the session. -/
def JSEventListener.forward (event0 data : List Nat) : SendJSEvent :=
  { event := (memcpy event0 data data.length).take JSEvent_Struct.sizeof
    overrun := data.length - JSEvent_Struct.sizeof }

/-- One pass of the loop body of `run`: the calls made on the session. -/
def JSEventListener.pass (p : Pass) : List SendJSEvent :=
  match p.recv with
  | .error => []
  | .message data => [JSEventListener.forward p.event0 data]

/-- The loop `while (!stop) { ... }` of `run` over the passes its environment
supplies: the calls made on the session, in order. -/
def JSEventListener.runLoop : List Pass → List SendJSEvent
  | [] => []
  | p :: rest =>
    if p.stop then [] else JSEventListener.pass p ++ JSEventListener.runLoop rest

/-- The member function `JSEventListener::run`: `zmq_bind` returns `bindRc`,
`assert(rc==0)` ends the program when it is not zero (`none`), otherwise the
loop runs. -/
def JSEventListener.run (bindRc : Int) (passes : List Pass) : Option (List SendJSEvent) :=
  if bindRc = 0 then some (JSEventListener.runLoop passes) else none

/-- The messages among the receive results, in order. -/
def receivedMessages : List Pass → List (List Nat × List Nat)
  | [] => []
  | p :: rest =>
    match p.recv with
    | .error => receivedMessages rest
    | .message data => (p.event0, data) :: receivedMessages rest

/-! ## `StreamWindow` -/

/-- What a pointer field holds: `nullptr`, the address of a live object, or a
non-null address at which there is no object (the object was deleted, or the
field was never assigned). -/
inductive Ptr where
  | null
  | live
  | invalid
  deriving DecidableEq, Repr

/-- The test `if (p)`. -/
def Ptr.nonNull (p : Ptr) : Bool :=
  p != .null

/-- The field after `delete p`: the statement does not assign the field, so a
pointer to a live object becomes a pointer to no object. -/
def Ptr.afterDelete : Ptr → Ptr
  | .live => .invalid
  | p => p

/-- Text of the user interface (`QString`). -/
abbrev QString := List Char

/-- An operation of the window on a collaborator.  An operation through a
pointer field carries what the field held when the operation was made. -/
inductive Op where
  | listenerTerminate (p : Ptr)
  | listenerDelete (p : Ptr)
  | listenerStart (p : Ptr)
  | sessionStart (p : Ptr)
  | sessionStop (p : Ptr)
  | avWidgetDelete (p : Ptr)
  | critical (title text : QString)
  | close
  | qshow
  deriving DecidableEq, Repr

/-- The operation needs an object that is not there: a member call through a
pointer that is not live, or a `delete` of an address that holds no object
(`delete` of `nullptr` does nothing and is no use). -/
def Op.usesAbsent : Op → Bool
  | .listenerTerminate p => p != .live
  | .listenerStart p => p != .live
  | .sessionStart p => p != .live
  | .sessionStop p => p != .live
  | .listenerDelete p => p == .invalid
  | .avWidgetDelete p => p == .invalid
  | .critical _ _ => false
  | .close => false
  | .qshow => false

/-- The component pointers of `StreamWindow`. -/
structure StreamWindow where
  session : Ptr
  av_widget : Ptr
  jsEventListener : Ptr
  deriving DecidableEq, Repr

/-- What the functions take from outside the two files: the translation `tr`,
`QString::arg`, the library function `chiaki_quit_reason_string` and the
enumerator `CHIAKI_QUIT_REASON_STOPPED` of `ChiakiQuitReason`. -/
structure Env where
  tr : QString → QString
  arg : QString → QString → QString
  chiaki_quit_reason_string : Nat → QString
  CHIAKI_QUIT_REASON_STOPPED : Nat

/-- The member function `StreamWindow::closeEvent`. -/
def StreamWindow.closeEvent (w : StreamWindow) : StreamWindow × List Op :=
  let ops := [Op.listenerTerminate w.jsEventListener, Op.listenerDelete w.jsEventListener]
  let w1 := { w with jsEventListener := w.jsEventListener.afterDelete }
  if w1.session.nonNull then (w1, ops ++ [Op.sessionStop w1.session]) else (w1, ops)

/-- The destructor `StreamWindow::~StreamWindow`. -/
def StreamWindow.destroy (w : StreamWindow) : StreamWindow × List Op :=
  let r : StreamWindow × List Op :=
    if w.jsEventListener.nonNull then
      ({ w with jsEventListener := w.jsEventListener.afterDelete },
        [Op.listenerTerminate w.jsEventListener, Op.listenerDelete w.jsEventListener])
    else (w, [])
  ({ r.1 with av_widget := r.1.av_widget.afterDelete }, r.2 ++ [Op.avWidgetDelete r.1.av_widget])

/-- The member function `StreamWindow::Init`.  `thrown` is the exception of the
`StreamSession` constructor, if it throws one: the function is then left before
any field is assigned. -/
def StreamWindow.Init (w : StreamWindow) (thrown : Option QString) :
    Except QString (StreamWindow × List Op) :=
  match thrown with
  | some what => .error what
  | none =>
    let w1 := { w with session := .live }
    let w2 := { w1 with av_widget := .live }
    let w3 := { w2 with jsEventListener := .live }
    .ok (w3, [Op.sessionStart w2.session, Op.listenerStart w3.jsEventListener, Op.qshow])

/-- The constructor `StreamWindow::StreamWindow`.  `jsEventListener0` is what
the field `jsEventListener` holds when the constructor body is entered (the
body assigns `session` and `av_widget` only); `close()` delivers the close
event to the window, that is, runs `closeEvent`. -/
def StreamWindow.new (env : Env) (jsEventListener0 : Ptr) (thrown : Option QString) :
    StreamWindow × List Op :=
  let w : StreamWindow :=
    { session := .null, av_widget := .null, jsEventListener := jsEventListener0 }
  match w.Init thrown with
  | .ok r => r
  | .error what =>
    let box := Op.critical (env.tr "Stream failed".toList)
      (env.arg (env.tr "Failed to initialize Stream Session: %1".toList) what)
    let r := w.closeEvent
    (r.1, box :: Op.close :: r.2)

/-- The close sequence of a window: `closeEvent`, then the destructor. -/
def StreamWindow.closeAndDestroy (w : StreamWindow) : StreamWindow × List Op :=
  let r1 := w.closeEvent
  let r2 := r1.1.destroy
  (r2.1, r1.2 ++ r2.2)

/-- The text appended to the message for a reason text `reason_str`. -/
def detailText (env : Env) (reason_str : QString) : QString :=
  "\n".toList ++ env.tr "Reason".toList ++ ": \"".toList ++ reason_str ++ "\"".toList

/-- The message `m` built by `SessionQuit`. -/
def quitMessage (env : Env) (reason : Nat) (reason_str : QString) : QString :=
  let m := env.tr "Chiaki Session has quit".toList ++ ":\n".toList
    ++ env.chiaki_quit_reason_string reason
  if !reason_str.isEmpty then m ++ detailText env reason_str else m

/-- The member function `StreamWindow::SessionQuit`. -/
def StreamWindow.SessionQuit (env : Env) (reason : Nat) (reason_str : QString) : List Op :=
  if reason != env.CHIAKI_QUIT_REASON_STOPPED then
    [Op.critical (env.tr "Session has quit".toList) (quitMessage env reason reason_str), Op.close]
  else [Op.close]

/-! ## Layout of `JSEvent_Struct` -/

theorem sizeof_eq : JSEvent_Struct.sizeof = 26 := by decide

theorem offsetOf_eq (m : Member) :
    JSEvent_Struct.offsetOf m =
      match m with
      | .buttonA => 0 | .buttonB => 1 | .buttonX => 2 | .buttonY => 3
      | .buttonLeft => 4 | .buttonRight => 5 | .buttonUp => 6 | .buttonDown => 7
      | .buttonL1 => 8 | .buttonR1 => 9 | .buttonL3 => 10 | .buttonR3 => 11
      | .buttonStart => 12 | .buttonSelect => 13 | .buttonGuide => 14
      | ._dummy => 15 | .buttonL2 => 16 | .buttonR2 => 17
      | .axisLeftX => 18 | .axisLeftY => 20 | .axisRightX => 22 | .axisRightY => 24 := by
  cases m <;> decide

theorem toBytes_length (bo : ByteOrder) (e : JSEvent_Struct) :
    (e.toBytes bo).length = JSEvent_Struct.sizeof := by
  cases bo <;> simp [JSEvent_Struct.toBytes, shortBytes, sizeof_eq]

/-- C6, as stated, fails on the header: the boolean members are not 17, the
reserved member `_dummy` is not one of the first 15 members, and the member
types are not 15 + 2 booleans followed by 4 shorts. -/
theorem JSEvent_Struct_claimed_layout_fails :
    (JSEvent_Struct.types.filter (· == CType.bool)).length ≠ 17
    ∧ ((JSEvent_Struct.decl.take 15).any fun p => p.1.isReserved) = false
    ∧ JSEvent_Struct.types
        ≠ List.replicate 15 CType.bool ++ List.replicate 2 CType.bool
            ++ List.replicate 4 CType.short := by
  decide

/-- C6 (amended): the members of `JSEvent_Struct` are, in order, 15 boolean
button flags none of which is reserved, then the reserved boolean `_dummy` as
the 16th member, then the booleans `buttonL2` and `buttonR2`, then the four
`short` members `axisLeftX`, `axisLeftY`, `axisRightX`, `axisRightY`: 18
booleans in all, exactly one of them reserved, and 4 shorts. -/
theorem JSEvent_Struct_layout :
    JSEvent_Struct.types
        = List.replicate 15 CType.bool ++ [CType.bool] ++ List.replicate 2 CType.bool
            ++ List.replicate 4 CType.short
    ∧ ((JSEvent_Struct.decl.take 15).any fun p => p.1.isReserved) = false
    ∧ JSEvent_Struct.decl[15]? = some (Member._dummy, CType.bool)
    ∧ (JSEvent_Struct.decl.filter fun p => p.1.isReserved) = [(Member._dummy, CType.bool)]
    ∧ (JSEvent_Struct.decl.drop 16).map Prod.fst
        = [Member.buttonL2, Member.buttonR2, Member.axisLeftX, Member.axisLeftY,
            Member.axisRightX, Member.axisRightY]
    ∧ (JSEvent_Struct.types.filter (· == CType.bool)).length = 18
    ∧ (JSEvent_Struct.types.filter (· == CType.short)).length = 4
    ∧ JSEvent_Struct.decl.length = 22 := by
  decide

/-! ## The copy step of `run` -/

theorem boolByte_ne_zero (b : Bool) : (boolByte b != 0) = b := by
  cases b <;> rfl

theorem shortOfBytes_little (x : Int) (h : isInt16 x) :
    shortOfBytes .little ((x % 65536).toNat % 256) ((x % 65536).toNat / 256) = x := by
  unfold isInt16 at h
  simp only [shortOfBytes]
  split <;> omega

theorem shortOfBytes_big (x : Int) (h : isInt16 x) :
    shortOfBytes .big ((x % 65536).toNat / 256) ((x % 65536).toNat % 256) = x := by
  unfold isInt16 at h
  simp only [shortOfBytes]
  split <;> omega

theorem memcpy_short (event0 data : List Nat) (hlen : data.length ≤ event0.length) :
    memcpy event0 data data.length = data ++ event0.drop data.length
    ∧ (memcpy event0 data data.length).length = event0.length := by
  simp [memcpy]
  omega

theorem forward_of_le (event0 data : List Nat) (hlen : data.length ≤ JSEvent_Struct.sizeof)
    (h0 : event0.length = JSEvent_Struct.sizeof) :
    JSEventListener.forward event0 data
      = { event := data ++ event0.drop data.length, overrun := 0 } := by
  have hm := memcpy_short event0 data (by omega)
  unfold JSEventListener.forward
  rw [List.take_of_length_le (by omega), hm.1]
  simp
  omega

theorem forward_exact (event0 data : List Nat) (hlen : data.length = JSEvent_Struct.sizeof) :
    (JSEventListener.forward event0 data).event = data := by
  simp [JSEventListener.forward, memcpy, hlen, List.take_append_eq_append_take]

/-- C8: for every event `e` whose axes are `short` values, and either byte
order, the byte image of `e` has exactly `sizeof(JSEvent_Struct)` bytes, and a
message holding it, copied by the listener into its local `event` (whatever
that local held before), gives an event equal to `e` in every member, with
nothing written past the local. -/
theorem wire_round_trip (bo : ByteOrder) (e : JSEvent_Struct) (event0 : List Nat)
    (h : e.InRange) :
    (e.toBytes bo).length = JSEvent_Struct.sizeof
    ∧ JSEvent_Struct.ofBytes bo (JSEventListener.forward event0 (e.toBytes bo)).event = e
    ∧ (JSEventListener.forward event0 (e.toBytes bo)).overrun = 0 := by
  refine ⟨toBytes_length bo e, ?_, ?_⟩
  · obtain ⟨h1, h2, h3, h4⟩ := h
    cases e
    cases bo <;>
    simp [JSEvent_Struct.ofBytes, JSEventListener.forward, memcpy, JSEvent_Struct.toBytes,
      sizeof_eq, offsetOf_eq, shortBytes, readBool, readShort, boolByte_ne_zero,
      shortOfBytes_little _ h1, shortOfBytes_little _ h2, shortOfBytes_little _ h3,
      shortOfBytes_little _ h4, shortOfBytes_big _ h1, shortOfBytes_big _ h2,
      shortOfBytes_big _ h3, shortOfBytes_big _ h4]
  · simp [JSEventListener.forward, toBytes_length]

/-- C8 at the extremes: all buttons pressed with the axes at -32768 and 32767,
and all buttons released with the axes at 32767 and -32768. -/
theorem wire_round_trip_witness :
    (JSEvent_Struct.InRange
        ⟨true, true, true, true, true, true, true, true, true, true, true, true, true, true,
          true, true, true, true, -32768, 32767, -32768, 32767⟩
      ∧ JSEvent_Struct.ofBytes .little
          (JSEventListener.forward (List.replicate 26 170)
            (JSEvent_Struct.toBytes .little
              ⟨true, true, true, true, true, true, true, true, true, true, true, true, true, true,
                true, true, true, true, -32768, 32767, -32768, 32767⟩)).event
        = ⟨true, true, true, true, true, true, true, true, true, true, true, true, true, true,
            true, true, true, true, -32768, 32767, -32768, 32767⟩)
    ∧ JSEvent_Struct.ofBytes .big
          (JSEventListener.forward []
            (JSEvent_Struct.toBytes .big
              ⟨false, false, false, false, false, false, false, false, false, false, false,
                false, false, false, false, false, false, false, 32767, -32768, 0, -1⟩)).event
        = ⟨false, false, false, false, false, false, false, false, false, false, false,
            false, false, false, false, false, false, false, 32767, -32768, 0, -1⟩ :=
  ⟨⟨by decide, (wire_round_trip .little _ _ (by decide)).2.1⟩,
    (wire_round_trip .big _ _ (by decide)).2.1⟩

/-- C1, as stated, fails: a pass that receives a 4-byte message, four bytes
being fewer than `sizeof(JSEvent_Struct)`, makes one `SendJSEvent` call, with
an event made of the four message bytes and 22 bytes left over in the local. -/
theorem short_message_is_forwarded_example :
    [1, 2, 3, 4].length < JSEvent_Struct.sizeof
    ∧ JSEventListener.run 0 [⟨false, .message [1, 2, 3, 4], List.replicate 26 170⟩]
        = some [⟨[1, 2, 3, 4] ++ List.replicate 22 170, 0⟩] := by
  decide

/-- C1 (amended): a pass of the loop that finds `stop` false and receives a
message of at most `sizeof(JSEvent_Struct)` bytes makes exactly one
`SendJSEvent` call before the loop goes on; the event passed consists of the
message bytes followed by the bytes the local `event` held behind them, and
nothing is written past the local. -/
theorem received_message_is_forwarded (p : Pass) (rest : List Pass) (data : List Nat)
    (hstop : p.stop = false) (hrecv : p.recv = .message data)
    (hlen : data.length ≤ JSEvent_Struct.sizeof)
    (h0 : p.event0.length = JSEvent_Struct.sizeof) :
    JSEventListener.runLoop (p :: rest)
      = { event := data ++ p.event0.drop data.length, overrun := 0 }
          :: JSEventListener.runLoop rest := by
  simp [JSEventListener.runLoop, JSEventListener.pass, hstop, hrecv,
    forward_of_le p.event0 data hlen h0]

/-- C1 (amended) at a 4-byte message followed by a receive error. -/
theorem received_message_is_forwarded_witness :
    JSEventListener.runLoop
        [⟨false, .message [9, 8, 7, 6], List.replicate 26 0⟩, ⟨false, .error, []⟩]
      = [⟨[9, 8, 7, 6] ++ List.replicate 22 0, 0⟩] :=
  received_message_is_forwarded ⟨false, .message [9, 8, 7, 6], List.replicate 26 0⟩
    [⟨false, .error, []⟩] [9, 8, 7, 6] rfl rfl (by decide) (by decide)

theorem runLoop_eq_map (passes : List Pass) (h : ∀ p ∈ passes, p.stop = false) :
    JSEventListener.runLoop passes
      = (receivedMessages passes).map fun m => JSEventListener.forward m.1 m.2 := by
  induction passes with
  | nil => rfl
  | cons p rest ih =>
    have hp : p.stop = false := h p (List.mem_cons_self _ _)
    have hrest := ih fun q hq => h q (List.mem_cons_of_mem _ hq)
    cases hr : p.recv <;>
      simp [JSEventListener.runLoop, JSEventListener.pass, receivedMessages, hp, hr, hrest]

/-- C7: when every loop test of `run` finds `stop` false, the `SendJSEvent`
calls are exactly the received messages, one call per message and in the order
of receipt, each carrying the event copied from its message (for a message of
`sizeof(JSEvent_Struct)` bytes: the message bytes themselves); a pass whose
receive fails makes no call and the loop goes on with the next pass. -/
theorem run_forwards_received_in_order (passes : List Pass)
    (h : ∀ p ∈ passes, p.stop = false) :
    JSEventListener.run 0 passes
        = some ((receivedMessages passes).map fun m => JSEventListener.forward m.1 m.2)
    ∧ ((∀ m ∈ receivedMessages passes, m.2.length = JSEvent_Struct.sizeof) →
        (JSEventListener.runLoop passes).map (fun c => c.event)
          = (receivedMessages passes).map fun m => m.2)
    ∧ (∀ event0, JSEventListener.runLoop (⟨false, .error, event0⟩ :: passes)
        = JSEventListener.runLoop passes) := by
  refine ⟨?_, ?_, ?_⟩
  · simp [JSEventListener.run, runLoop_eq_map passes h]
  · intro hm
    rw [runLoop_eq_map passes h, List.map_map]
    apply List.map_congr_left
    intro m hmem
    exact forward_exact m.1 m.2 (hm m hmem)
  · intro event0
    simp [JSEventListener.runLoop, JSEventListener.pass]

/-- C7 at three messages with a receive error between the first two. -/
theorem run_forwards_received_in_order_witness :
    JSEventListener.run 0
        [⟨false, .message [1], [0]⟩, ⟨false, .error, []⟩, ⟨false, .message [2], [0]⟩,
          ⟨false, .message [3], [0]⟩]
      = some [JSEventListener.forward [0] [1], JSEventListener.forward [0] [2],
          JSEventListener.forward [0] [3]] :=
  (run_forwards_received_in_order _ (by decide)).1

/-! ## `JSEventListener::terminate` -/

theorem new_stopImpliesReleased : JSEventListener.new.StopImpliesReleased := by
  decide

theorem terminate_stopImpliesReleased (l : JSEventListener) :
    l.terminate.StopImpliesReleased := by
  intro _
  rfl

/-- C2: from every listener state, `terminate` first closes the socket, then
destroys the context, and only then assigns `stop`: the two releases leave
`stop` as it was, the channel is already released in the state in which `stop`
is assigned, and in the final state `stop` is true and the channel is released.
Entered in a state in which `stop` is not set while the channel is open (the
constructor gives such a state and `terminate` keeps it so), `terminate` goes
through no state in which `stop` is true while the socket or the context is
still live. -/
theorem terminate_releases_before_stop (l : JSEventListener) :
    l.terminateStates.getLast? = some l.terminate
    ∧ l.closeSocket.stop = l.stop
    ∧ l.closeSocket.destroyContext.stop = l.stop
    ∧ l.closeSocket.destroyContext.channelReleased = true
    ∧ l.terminate.stop = true
    ∧ l.terminate.channelReleased = true
    ∧ l.terminateCalls = [ZmqCall.zmq_close l.z_socket, ZmqCall.zmq_ctx_destroy l.z_context]
    ∧ (l.StopImpliesReleased → ∀ t ∈ l.terminateStates, t.StopImpliesReleased) := by
  rcases l with ⟨c, s, b⟩
  cases c <;> cases s <;> cases b <;> decide

/-- C2 at the state made by the constructor: `stop` is false on entry, stays
false while the socket and the context are released, and is true at the end. -/
theorem terminate_releases_before_stop_witness :
    JSEventListener.new.StopImpliesReleased
    ∧ (∀ t ∈ JSEventListener.new.terminateStates, t.StopImpliesReleased)
    ∧ JSEventListener.new.terminateStates
        = [{ z_context := .live, z_socket := .live, stop := false },
            { z_context := .live, z_socket := .released, stop := false },
            { z_context := .released, z_socket := .released, stop := false },
            { z_context := .released, z_socket := .released, stop := true }] :=
  ⟨by decide,
    (terminate_releases_before_stop JSEventListener.new).2.2.2.2.2.2.2 (by decide), rfl⟩

/-- C3, as stated, fails: the second of two `terminate` calls on a new listener
again calls `zmq_close` and `zmq_ctx_destroy`, now on the socket and the
context that the first call released. -/
theorem second_terminate_calls_released_handles :
    JSEventListener.new.terminateCalls
        = [ZmqCall.zmq_close .live, ZmqCall.zmq_ctx_destroy .live]
    ∧ JSEventListener.new.terminate.terminateCalls
        = [ZmqCall.zmq_close .released, ZmqCall.zmq_ctx_destroy .released] := by
  decide

/-- C3 (amended): for every listener state, two `terminate` calls in sequence
end in the same listener state as one call, with the channel released and
`stop` true; the second call is not guarded: it makes the same two library
calls as the first, on the socket and context already released. -/
theorem terminate_twice_same_state (l : JSEventListener) :
    l.terminate.terminate = l.terminate
    ∧ l.terminate.terminate.channelReleased = true
    ∧ l.terminate.terminate.stop = true
    ∧ l.terminate.terminateCalls
        = [ZmqCall.zmq_close .released, ZmqCall.zmq_ctx_destroy .released] := by
  rcases l with ⟨c, s, b⟩
  cases c <;> cases s <;> cases b <;> decide

/-! ## Teardown of `StreamWindow` -/

theorem new_ok (env : Env) (p : Ptr) :
    (StreamWindow.new env p none).1
      = { session := .live, av_widget := .live, jsEventListener := .live } := by
  rfl

/-- C4, as stated, fails: for a window whose three components are live, the
close sequence is not terminate, delete, render sink teardown, `Stop`;
`closeEvent` already calls `session->Stop()`, and the render sink is still
live when it returns. -/
theorem close_sequence_stops_session_first :
    (StreamWindow.closeAndDestroy ⟨.live, .live, .live⟩).2
        ≠ [Op.listenerTerminate .live, Op.listenerDelete .live, Op.avWidgetDelete .live,
            Op.sessionStop .live]
    ∧ (StreamWindow.closeEvent ⟨.live, .live, .live⟩).2.getLast? = some (Op.sessionStop .live)
    ∧ (StreamWindow.closeEvent ⟨.live, .live, .live⟩).1.av_widget = .live := by
  decide

/-- C4 (amended): for a successfully initialised window (session, render sink
and listener live), `closeEvent` performs exactly: terminate the listener,
delete the listener, stop the session, in this order, and leaves the render
sink alive; the render sink is deleted afterwards, as the last step of the
destructor, which does not stop the session. -/
theorem close_sequence_order (env : Env) (p : Ptr) :
    (StreamWindow.new env p none).1.closeEvent.2
        = [Op.listenerTerminate .live, Op.listenerDelete .live, Op.sessionStop .live]
    ∧ (StreamWindow.new env p none).1.closeEvent.1.av_widget = .live
    ∧ (StreamWindow.new env p none).1.closeEvent.1.destroy.2.getLast?
        = some (Op.avWidgetDelete .live)
    ∧ (∀ q, Op.sessionStop q ∉ (StreamWindow.new env p none).1.closeEvent.1.destroy.2)
    ∧ (StreamWindow.new env p none).1.closeEvent.1.destroy.1.av_widget = .invalid := by
  rw [new_ok]
  refine ⟨by decide, by decide, by decide, ?_, by decide⟩
  intro q
  cases q <;> decide

/-- C10 fails on the code: `closeEvent` deletes the listener without clearing
the field, so the presence check of the destructor finds a non-null pointer
and the listener operations of the close sequence are terminate, delete,
terminate, delete, the second pair on the deleted listener. -/
theorem listener_terminated_and_deleted_twice :
    (StreamWindow.closeEvent ⟨.live, .live, .live⟩).1.jsEventListener = .invalid
    ∧ (StreamWindow.closeEvent ⟨.live, .live, .live⟩).1.jsEventListener.nonNull = true
    ∧ (StreamWindow.closeAndDestroy ⟨.live, .live, .live⟩).2.filter
          (fun o => o matches .listenerTerminate _ | .listenerDelete _)
        = [Op.listenerTerminate .live, Op.listenerDelete .live,
            Op.listenerTerminate .invalid, Op.listenerDelete .invalid] := by
  decide

/-- C5 fails on the code: when the `StreamSession` constructor throws, the
error path of the window constructor runs `closeEvent`, which calls
`terminate` through the listener field without a presence check, whether the
field holds `nullptr` or was never assigned; the session and the render sink
are guarded or null-safe. -/
theorem failed_init_close_uses_absent_listener (env : Env) (what : QString) :
    Op.listenerTerminate .null ∈ (StreamWindow.new env .null (some what)).2
    ∧ Op.listenerTerminate .invalid ∈ (StreamWindow.new env .invalid (some what)).2
    ∧ (StreamWindow.new env .null (some what)).2.any Op.usesAbsent = true
    ∧ (StreamWindow.new env .invalid (some what)).2.any Op.usesAbsent = true
    ∧ (∀ q, Op.sessionStop q ∉ (StreamWindow.new env .null (some what)).2)
    ∧ (StreamWindow.new env .null (some what)).1.destroy.2 = [Op.avWidgetDelete .null] := by
  simp [StreamWindow.new, StreamWindow.Init, StreamWindow.closeEvent, StreamWindow.destroy,
    Ptr.nonNull, Ptr.afterDelete, Op.usesAbsent]

/-! ## `StreamWindow::SessionQuit` -/

theorem quitMessage_nil (env : Env) (reason : Nat) :
    quitMessage env reason []
      = env.tr "Chiaki Session has quit".toList ++ ":\n".toList
          ++ env.chiaki_quit_reason_string reason := by
  rfl

theorem quitMessage_of_ne_nil (env : Env) (reason : Nat) (reason_str : QString)
    (h : reason_str ≠ []) :
    quitMessage env reason reason_str
      = env.tr "Chiaki Session has quit".toList ++ ":\n".toList
          ++ env.chiaki_quit_reason_string reason ++ detailText env reason_str := by
  cases reason_str with
  | nil => exact absurd rfl h
  | cons c cs => rfl

/-- C9: for every quit reason and reason text, `SessionQuit` shows an error
message exactly when the reason is not `CHIAKI_QUIT_REASON_STOPPED`; the
message shown contains the string of the reason; when the reason text is not
empty the message contains it, inside the appended detail line, and when it is
empty the message ends with the string of the reason and has no detail line;
`close()` is called once, as the last operation, in every case. -/
theorem sessionQuit_reports_then_closes (env : Env) (reason : Nat) (reason_str : QString) :
    ((∃ t m, Op.critical t m ∈ StreamWindow.SessionQuit env reason reason_str)
        ↔ reason ≠ env.CHIAKI_QUIT_REASON_STOPPED)
    ∧ (∀ t m, Op.critical t m ∈ StreamWindow.SessionQuit env reason reason_str →
        env.chiaki_quit_reason_string reason <:+: m
        ∧ (reason_str ≠ [] → reason_str <:+: m ∧ detailText env reason_str <:+: m)
        ∧ (reason_str = [] →
            m = env.tr "Chiaki Session has quit".toList ++ ":\n".toList
                  ++ env.chiaki_quit_reason_string reason))
    ∧ (StreamWindow.SessionQuit env reason reason_str).getLast? = some Op.close
    ∧ (StreamWindow.SessionQuit env reason reason_str).count Op.close = 1 := by
  by_cases hr : reason = env.CHIAKI_QUIT_REASON_STOPPED
  · simp [StreamWindow.SessionQuit, hr]
  · refine ⟨?_, ?_, ?_, ?_⟩
    · simp [StreamWindow.SessionQuit, hr]
    · intro t m hm
      have hm2 : m = quitMessage env reason reason_str := by
        simp [StreamWindow.SessionQuit, hr] at hm
        exact hm.2
      subst hm2
      by_cases he : reason_str = []
      · subst he
        rw [quitMessage_nil]
        exact ⟨(List.suffix_append _ _).isInfix, fun h => absurd rfl h, fun _ => rfl⟩
      · have hd : reason_str <:+: detailText env reason_str := by
          unfold detailText
          exact List.infix_append _ _ _
        rw [quitMessage_of_ne_nil env reason reason_str he]
        refine ⟨?_, fun _ => ⟨?_, ?_⟩, fun h => absurd h he⟩
        · exact List.infix_append _ _ _
        · exact hd.trans (List.suffix_append _ _).isInfix
        · exact (List.suffix_append _ _).isInfix
    · simp [StreamWindow.SessionQuit, hr]
    · simp [StreamWindow.SessionQuit, hr]

end Chiaki
